import Mathlib

set_option maxHeartbeats 1000000
set_option maxRecDepth 8000

/-!
Shallow embedding of the similarity core of the `game-recommendation`
repository: the scoring service (`core/similarity/service.py` and
`core/similarity/dto.py`) and the sqlite-vec embedding store with its
binary vector codec (`infra/db/sqlite_vec.py`).

Python finite floats are modelled as exact rationals; the special values
NaN and the two infinities are explicit constructors of `PyFloat`.
Python strings are Lean strings; `str.lower`, `str.strip` and the word
tokenizer are modelled character-wise (ASCII case folding).
-/

/-- Python float value as seen by the similarity service: finite floats are
modelled as exact rationals, plus explicit NaN and signed infinities. -/
inductive PyFloat where
  | nan
  | negInf
  | posInf
  | val (q : ℚ)
deriving DecidableEq

/-- Truth value of Python `math.isnan(x)`. -/
def PyFloat.isnan : PyFloat → Bool
  | .nan => true
  | _ => false

/-- Truth value of the Python comparison `x < 0` (False on NaN). -/
def PyFloat.ltZero : PyFloat → Bool
  | .negInf => true
  | .val q => decide (q < 0)
  | _ => false

/-- Model of Python `str.lower()` (ASCII case folding, character-wise). -/
def pyLower (s : String) : String :=
  ⟨s.data.map Char.toLower⟩

/-- Model of Python `str.strip()`: drop whitespace from both ends. -/
def pyStrip (s : String) : String :=
  ⟨((s.data.dropWhile Char.isWhitespace).reverse.dropWhile Char.isWhitespace).reverse⟩

/-- Stored metadata mapping, restricted to the well-known keys the similarity
core reads (`title`, `summary`, `tags`, `genres`, `keywords`); `none` models
an absent key (or a key stored with a null value, which `dict.get` makes
indistinguishable from an absent one for `title`/`summary`).  The whole
mapping is also kept verbatim as the passthrough bag (`extra`). -/
structure Metadata where
  title : Option String := none
  summary : Option String := none
  tags : Option (List String) := none
  genres : Option (List String) := none
  keywords : Option (List String) := none
deriving DecidableEq

/-- Loop of `_normalize_sequence` (dto.py lines 19-29): strip each entry,
drop empties, keep the first occurrence of every stripped value. -/
def normalizeSeqLoop (acc : List String) : List String → List String
  | [] => acc
  | v :: rest =>
    let text := pyStrip v
    if text = "" then normalizeSeqLoop acc rest
    else if text ∈ acc then normalizeSeqLoop acc rest
    else normalizeSeqLoop (acc ++ [text]) rest

/-- Model of `_normalize_sequence` (dto.py lines 19-29). -/
def _normalize_sequence (values : List String) : List String :=
  normalizeSeqLoop [] values

/-- Loop of `_normalize_ids` (dto.py lines 32-43): strip, drop empties,
lowercase, keep the first occurrence of every lowered value. -/
def normalizeIdsLoop (acc : List String) : List String → List String
  | [] => acc
  | v :: rest =>
    let text := pyStrip v
    if text = "" then normalizeIdsLoop acc rest
    else
      let lowered := pyLower text
      if lowered ∈ acc then normalizeIdsLoop acc rest
      else normalizeIdsLoop (acc ++ [lowered]) rest

/-- Model of `_normalize_ids` (dto.py lines 32-43). -/
def _normalize_ids (values : List String) : List String :=
  normalizeIdsLoop [] values

/-- Input DTO `SimilarityQuery` (dto.py lines 46-81), in the state reached
after `__post_init__`: the sequences have been normalized and the excluded
ids lowered.  `game_id = none` models Python `None`. -/
structure SimilarityQuery where
  title : String
  summary : Option String := none
  tags : List String := []
  genres : List String := []
  focus_keywords : List String := []
  limit : ℤ := 10
  game_id : Option String := none
  excluded_game_ids : List String := []
deriving DecidableEq

/-- Validation failures raised by `SimilarityQuery.__post_init__`. -/
inductive DtoError where
  | titleRequired
  | limitNotPositive
deriving DecidableEq

/-- Constructor modelling `SimilarityQuery.__post_init__` (dto.py lines
59-69): reject a blank title and a non-positive limit, then normalize the
attribute sequences and the excluded ids. -/
def mkSimilarityQuery (title : String) (summary : Option String)
    (tags genres focus_keywords : List String) (limit : ℤ)
    (game_id : Option String) (excluded_game_ids : List String) :
    Except DtoError SimilarityQuery :=
  if pyStrip title = "" then .error .titleRequired
  else if limit ≤ 0 then .error .limitNotPositive
  else .ok
    { title := title
      summary := summary
      tags := _normalize_sequence tags
      genres := _normalize_sequence genres
      focus_keywords := _normalize_sequence focus_keywords
      limit := limit
      game_id := game_id
      excluded_game_ids := _normalize_ids excluded_game_ids }

/-- Property `SimilarityQuery.normalized_tags` (dto.py lines 71-73). -/
def SimilarityQuery.normalized_tags (q : SimilarityQuery) : List String :=
  q.tags.map pyLower

/-- Property `SimilarityQuery.normalized_genres` (dto.py lines 75-77). -/
def SimilarityQuery.normalized_genres (q : SimilarityQuery) : List String :=
  q.genres.map pyLower

/-- Property `SimilarityQuery.normalized_keywords` (dto.py lines 79-81). -/
def SimilarityQuery.normalized_keywords (q : SimilarityQuery) : List String :=
  q.focus_keywords.map pyLower

/-- Rehydrated candidate view `EmbeddedGameContext` (dto.py lines 84-113),
in the state reached after `__post_init__`. -/
structure EmbeddedGameContext where
  game_id : String
  title : Option String := none
  summary : Option String := none
  tags : List String := []
  genres : List String := []
  keywords : List String := []
  extra : Metadata := {}
deriving DecidableEq

/-- Constructor modelling `EmbeddedGameContext.__post_init__` (dto.py lines
96-100): normalize the three attribute sequences, keep the rest verbatim. -/
def mkEmbeddedGameContext (game_id : String) (title summary : Option String)
    (tags genres keywords : List String) (extra : Metadata) :
    EmbeddedGameContext :=
  { game_id := game_id
    title := title
    summary := summary
    tags := _normalize_sequence tags
    genres := _normalize_sequence genres
    keywords := _normalize_sequence keywords
    extra := extra }

/-- Property `EmbeddedGameContext.normalized_tags` (dto.py lines 102-104). -/
def EmbeddedGameContext.normalized_tags (p : EmbeddedGameContext) : Finset String :=
  (p.tags.map pyLower).toFinset

/-- Property `EmbeddedGameContext.normalized_genres` (dto.py lines 106-108). -/
def EmbeddedGameContext.normalized_genres (p : EmbeddedGameContext) : Finset String :=
  (p.genres.map pyLower).toFinset

/-- Property `EmbeddedGameContext.normalized_keywords` (dto.py lines 110-112). -/
def EmbeddedGameContext.normalized_keywords (p : EmbeddedGameContext) : Finset String :=
  (p.keywords.map pyLower).toFinset

/-- Model of `EmbeddedGameContext.from_metadata` (dto.py lines 114-129):
`payload = metadata or {}`, then the well-known keys are read with
`payload.get`, collections defaulting to empty, and the whole payload is
kept as `extra`. -/
def EmbeddedGameContext.from_metadata (game_id : String)
    (metadata : Option Metadata) : EmbeddedGameContext :=
  let payload := metadata.getD {}
  mkEmbeddedGameContext game_id payload.title payload.summary
    (payload.tags.getD []) (payload.genres.getD []) (payload.keywords.getD [])
    payload

/-- Scored candidate `SimilarityMatch` (dto.py lines 132-143). -/
structure SimilarityMatch where
  candidate : EmbeddedGameContext
  score : ℚ
  base_score : ℚ
  distance : PyFloat
  reasons : List String
deriving DecidableEq

/-- Candidate row as consumed by `SimilarityService`: the fields of
`GameEmbeddingSearchResult` that the service reads (`game_id`, `metadata`,
`distance`).  `metadata = none` models a row stored with null metadata. -/
structure GameEmbeddingSearchRow where
  game_id : String
  metadata : Option Metadata := none
  distance : PyFloat
deriving DecidableEq

/-- Configuration of `SimilarityService` (service.py lines 46-56): the
server-side limit cap and the score floor. -/
structure ServiceConfig where
  max_limit : ℤ := 20
  min_score_threshold : ℚ := 0.05
deriving DecidableEq

/-- Model of `SimilarityService._base_similarity` (service.py lines
209-212).  The fallthrough arm is reached only by `posInf`, where Python
evaluates `1.0 / (1.0 + inf)` to `0.0`. -/
def _base_similarity (min_score_threshold : ℚ) (distance : PyFloat) : ℚ :=
  if distance.isnan || distance.ltZero then min_score_threshold
  else
    match distance with
    | .val q => 1 / (1 + q)
    | _ => 0

/-- Model of `SimilarityService._tag_bonus` (service.py lines 214-226). -/
def _tag_bonus (q : SimilarityQuery) (profile : EmbeddedGameContext) :
    ℚ × Option String :=
  let query_tags := q.normalized_tags.toFinset
  if query_tags = ∅ then (0, none)
  else
    let overlap := query_tags ∩ profile.normalized_tags
    if overlap = ∅ then (0, none)
    else
      let ratio : ℚ := (overlap.card : ℚ) / (query_tags.card : ℚ)
      let bonus := min 0.2 (0.05 + 0.15 * ratio)
      (bonus, some ("tag_overlap:" ++ String.intercalate "," (overlap.sort (· ≤ ·))))

/-- Model of `SimilarityService._genre_bonus` (service.py lines 228-240). -/
def _genre_bonus (q : SimilarityQuery) (profile : EmbeddedGameContext) :
    ℚ × Option String :=
  let query_genres := q.normalized_genres.toFinset
  if query_genres = ∅ then (0, none)
  else
    let overlap := query_genres ∩ profile.normalized_genres
    if overlap = ∅ then (0, none)
    else
      let ratio : ℚ := (overlap.card : ℚ) / (query_genres.card : ℚ)
      let bonus := min 0.15 (0.03 + 0.12 * ratio)
      (bonus, some ("genre_overlap:" ++ String.intercalate "," (overlap.sort (· ≤ ·))))

/-- Model of `SimilarityService._keyword_bonus` (service.py lines 242-257). -/
def _keyword_bonus (q : SimilarityQuery) (profile : EmbeddedGameContext) :
    ℚ × Option String :=
  let keywords := q.normalized_keywords.toFinset
  if keywords = ∅ then (0, none)
  else
    let candidate := profile.normalized_keywords ∪ profile.normalized_tags
    if candidate = ∅ then (0, none)
    else
      let overlap := keywords ∩ candidate
      if overlap = ∅ then (0, none)
      else
        let ratio : ℚ := (overlap.card : ℚ) / (keywords.card : ℚ)
        let bonus := min 0.1 (0.02 + 0.08 * ratio)
        (bonus, some ("keyword_overlap:" ++ String.intercalate "," (overlap.sort (· ≤ ·))))

/-- Character class of the tokenizer regex `[\w']+`: alphanumerics,
underscore and the apostrophe (code point 39). -/
def isWordChar (c : Char) : Bool :=
  c.isAlphanum || c = '_' || c.toNat = 39

/-- Model of `SimilarityService._tokenize` (service.py lines 297-298):
lowercase the text, take the maximal runs matching `[\w']+` as a set. -/
def _tokenize (text : String) : Finset String :=
  ((splitRuns (pyLower text).data []).filter (fun t => t ≠ "")).toFinset
where
  /-- Collect maximal runs of word characters from a character list; `acc`
  holds the (reversed) current run. -/
  splitRuns : List Char → List Char → List String
  | [], acc => if acc = [] then [] else [⟨acc.reverse⟩]
  | c :: rest, acc =>
    if isWordChar c then splitRuns rest (c :: acc)
    else if acc = [] then splitRuns rest []
    else ⟨acc.reverse⟩ :: splitRuns rest []

/-- Model of `SimilarityService._summary_bonus` (service.py lines 259-274).
Python's `if not query_summary or not candidate_summary` treats both `None`
and the empty string as missing. -/
def _summary_bonus (query_summary candidate_summary : Option String) :
    ℚ × Option String :=
  if query_summary.getD "" = "" ∨ candidate_summary.getD "" = "" then (0, none)
  else
    let query_tokens := _tokenize (query_summary.getD "")
    let candidate_tokens := _tokenize (candidate_summary.getD "")
    if query_tokens = ∅ ∨ candidate_tokens = ∅ then (0, none)
    else
      let overlap := query_tokens ∩ candidate_tokens
      if overlap = ∅ then (0, none)
      else
        let ratio : ℚ := (overlap.card : ℚ) / (query_tokens.card : ℚ)
        let bonus := min 0.2 (0.1 * ratio + 0.02)
        (bonus, some ("summary_overlap:" ++ toString overlap.card))

/-- Model of `SimilarityService._coverage_penalty` (service.py lines
276-292). -/
def _coverage_penalty (q : SimilarityQuery) (profile : EmbeddedGameContext) :
    ℚ × Option String :=
  let penalties : List (ℚ × String) :=
    (if q.tags ≠ [] ∧ profile.tags = [] then [((0.03 : ℚ), "missing_tags")] else []) ++
    (if q.genres ≠ [] ∧ profile.genres = [] then [((0.03 : ℚ), "missing_genres")] else []) ++
    (if q.summary.getD "" ≠ "" ∧ profile.summary.getD "" = "" then
      [((0.05 : ℚ), "missing_summary")] else [])
  if penalties = [] then (0, none)
  else ((penalties.map Prod.fst).sum,
        some ("penalty:" ++ String.intercalate "," (penalties.map Prod.snd)))

/-- Model of `SimilarityService._clamp` (service.py lines 294-295). -/
def _clamp (value : ℚ) : ℚ :=
  max 0 (min 1 value)

/-- Model of `SimilarityService._score_candidate` (service.py lines
160-207): base score from distance, the four additive bonuses and the
coverage penalty (each applied only when non-zero, collecting its reason),
then the clamp. -/
def _score_candidate (cfg : ServiceConfig) (q : SimilarityQuery)
    (record : GameEmbeddingSearchRow) (profile : EmbeddedGameContext) :
    SimilarityMatch :=
  let base_score := _base_similarity cfg.min_score_threshold record.distance
  let tb := _tag_bonus q profile
  let gb := _genre_bonus q profile
  let kb := _keyword_bonus q profile
  let sb := _summary_bonus q.summary profile.summary
  let cp := _coverage_penalty q profile
  let adjusted := base_score
    + (if tb.1 ≠ 0 then tb.1 else 0)
    + (if gb.1 ≠ 0 then gb.1 else 0)
    + (if kb.1 ≠ 0 then kb.1 else 0)
    + (if sb.1 ≠ 0 then sb.1 else 0)
    - (if cp.1 ≠ 0 then cp.1 else 0)
  let reasons :=
    (if tb.1 ≠ 0 then tb.2.toList else []) ++
    (if gb.1 ≠ 0 then gb.2.toList else []) ++
    (if kb.1 ≠ 0 then kb.2.toList else []) ++
    (if sb.1 ≠ 0 then sb.2.toList else []) ++
    (if cp.1 ≠ 0 then cp.2.toList else [])
  { candidate := profile
    score := _clamp adjusted
    base_score := base_score
    distance := record.distance
    reasons := reasons }

/-- Exclusion set built by `SimilarityService._filter_results` (service.py
lines 146-148): the normalized excluded ids plus the lowered `game_id`
when it is present and truthy. -/
def excludedIdSet (q : SimilarityQuery) : Finset String :=
  q.excluded_game_ids.toFinset ∪
    (match q.game_id with
     | some gid => if gid ≠ "" then {pyLower gid} else ∅
     | none => ∅)

/-- Loop of `SimilarityService._filter_results` (service.py lines 150-158):
skip rows whose lowered id is excluded or already seen; otherwise keep the
row and remember the id. -/
def filterResultsLoop (excluded seen : Finset String) :
    List GameEmbeddingSearchRow → List GameEmbeddingSearchRow
  | [] => []
  | r :: rest =>
    let identifier := pyLower r.game_id
    if identifier ∈ excluded ∨ identifier ∈ seen then
      filterResultsLoop excluded seen rest
    else r :: filterResultsLoop excluded (insert identifier seen) rest

/-- Model of `SimilarityService._filter_results` (service.py lines
141-158). -/
def _filter_results (q : SimilarityQuery)
    (results : List GameEmbeddingSearchRow) : List GameEmbeddingSearchRow :=
  filterResultsLoop (excludedIdSet q) ∅ results

/-- Score one filtered row (service.py lines 83-84): rebuild the candidate
context from the stored metadata and call `_score_candidate`. -/
def scoreRow (cfg : ServiceConfig) (q : SimilarityQuery)
    (record : GameEmbeddingSearchRow) : SimilarityMatch :=
  _score_candidate cfg q record
    (EmbeddedGameContext.from_metadata record.game_id record.metadata)

/-- Scoring loop of `find_similar` (service.py lines 81-89): score the
filtered rows in order, drop matches below the threshold, and stop as soon
as `limit` matches have been collected (`cnt` counts matches already
collected). -/
def collectMatches (cfg : ServiceConfig) (q : SimilarityQuery) (limit : ℤ) :
    List GameEmbeddingSearchRow → ℤ → List SimilarityMatch
  | [], _ => []
  | r :: rest, cnt =>
    let m := scoreRow cfg q r
    if m.score < cfg.min_score_threshold then collectMatches cfg q limit rest cnt
    else if limit ≤ cnt + 1 then [m]
    else m :: collectMatches cfg q limit rest (cnt + 1)

/-- Descending-by-score comparison used to model
`matches.sort(key=..., reverse=True)` (service.py line 91). -/
def scoreGE (a b : SimilarityMatch) : Prop :=
  b.score ≤ a.score

instance : DecidableRel scoreGE := fun _ _ => inferInstanceAs (Decidable (_ ≤ _))

/-- Pure core of `SimilarityService.find_similar` (service.py lines 58-97)
from the candidate rows returned by the repository onwards: clamp the
limit, filter, score with early truncation, then stable-sort by score
descending (Python's `list.sort` is stable; `List.insertionSort` with the
non-strict relation is the same stable sort). -/
def findSimilarMatches (cfg : ServiceConfig) (q : SimilarityQuery)
    (candidates : List GameEmbeddingSearchRow) : List SimilarityMatch :=
  let limit := min q.limit cfg.max_limit
  let filtered := _filter_results q candidates
  let collected := collectMatches cfg q limit filtered 0
  collected.insertionSort scoreGE

/-- Little-endian bytes of one 32-bit word, as `array('f').tobytes()`
produces per element in `_embedding_to_blob` (sqlite_vec.py lines
456-458). -/
def wordBytes (w : ℕ) : List ℕ :=
  [w % 256, w / 256 % 256, w / 256 ^ 2 % 256, w / 256 ^ 3 % 256]

/-- Model of `_embedding_to_blob` (sqlite_vec.py lines 456-458) at the
level of 32-bit IEEE-754 bit patterns: each float32 element (a word below
`2 ^ 32`) becomes four consecutive little-endian bytes. -/
def _embedding_to_blob (values : List ℕ) : List ℕ :=
  (values.map wordBytes).flatten

/-- Inverse packing used by `array('f').frombytes`: group the byte stream
into consecutive 4-byte little-endian words. -/
def bytesToWords : List ℕ → List ℕ
  | b0 :: b1 :: b2 :: b3 :: rest =>
    (b0 + 256 * b1 + 256 ^ 2 * b2 + 256 ^ 3 * b3) :: bytesToWords rest
  | _ => []

/-- Error taxonomy of the embedding store (sqlite_vec.py): the three
`SQLiteVecError` validation messages and the `ValueError` that
`array.frombytes` raises on a buffer that is not a whole number of
4-byte items. -/
inductive StoreErr where
  | dimensionMismatch
  | queryDimensionMismatch
  | storedDimensionMismatch
  | bufferSize
deriving DecidableEq

/-- Model of `_blob_to_embedding` (sqlite_vec.py lines 461-466) at byte
level: `frombytes` rejects a buffer whose length is not a multiple of 4,
then the decoded word count must equal the requested dimension. -/
def _blob_to_embedding (blob : List ℕ) (dimension : ℕ) :
    Except StoreErr (List ℕ) :=
  if blob.length % 4 ≠ 0 then .error .bufferSize
  else
    let buf := bytesToWords blob
    if buf.length ≠ dimension then .error .storedDimensionMismatch
    else .ok buf

/-- Distance metric fixed per store instance (sqlite_vec.py line 38). -/
inductive DistanceMetric where
  | cosine
  | l2
deriving DecidableEq

/-- Result of `_calculate_distance`: a real value or Python's
`float('inf')`. -/
inductive PyDist where
  | val (r : ℝ)
  | posInf

/-- Ordering on distances as Python's `<=` compares floats with `inf`. -/
def PyDist.le : PyDist → PyDist → Prop
  | _, .posInf => True
  | .posInf, .val _ => False
  | .val a, .val b => a ≤ b

/-- Dot product `sum(a * b for a, b in zip(x, y))`. -/
def dotQ (x y : List ℚ) : ℚ :=
  (List.zipWith (fun a b => a * b) x y).sum

/-- Sum of squares `sum(a * a for a in x)`. -/
def sumSq (x : List ℚ) : ℚ :=
  (x.map fun a => a * a).sum

open Classical in
/-- Model of `_calculate_distance` (sqlite_vec.py lines 469-484): the L2
norm of the difference, or `1 - dot / (norm_x * norm_y)` with the
`float('inf')` result when either norm is zero. -/
noncomputable def _calculate_distance (metric : DistanceMetric)
    (x y : List ℚ) : PyDist :=
  match metric with
  | .l2 =>
    .val (Real.sqrt ((List.zipWith (fun a b => ((a - b : ℚ) : ℝ) ^ 2) x y).sum))
  | .cosine =>
    if Real.sqrt ((sumSq x : ℚ) : ℝ) = 0 ∨ Real.sqrt ((sumSq y : ℚ) : ℝ) = 0 then
      .posInf
    else
      .val (1 - ((dotQ x y : ℚ) : ℝ) /
        (Real.sqrt ((sumSq x : ℚ) : ℝ) * Real.sqrt ((sumSq y : ℚ) : ℝ)))

/-- Model of `_normalize_embedding` (sqlite_vec.py lines 452-453): the
`float(value)` coercion is the identity on the rational model of floats. -/
def _normalize_embedding (values : List ℚ) : List ℚ :=
  values

/-- ORM row of the `game_embeddings` table (infra/db/models.py).  The two
blob columns are modelled at float32-word granularity: the byte packing is
`_embedding_to_blob`, verified separately, so a stored blob is represented
by its list of float32 values (its byte length is 4 times the list
length). -/
structure GameEmbeddingRow where
  id : ℕ
  game_id : String
  dimension : ℕ
  title_embedding : List ℚ
  description_embedding : List ℚ
  embedding_metadata : Option Metadata
  created_at : ℕ
  updated_at : ℕ
deriving DecidableEq

/-- DTO `GameEmbeddingRecord` (sqlite_vec.py lines 70-85). -/
structure GameEmbeddingRecord where
  game_id : String
  dimension : ℕ
  title_embedding : List ℚ
  description_embedding : List ℚ
  metadata : Metadata
  created_at : ℕ
  updated_at : ℕ
deriving DecidableEq

/-- DTO `GameEmbeddingSearchResult` (sqlite_vec.py lines 88-92). -/
structure GameEmbeddingSearchResult extends GameEmbeddingRecord where
  distance : PyDist

/-- DTO `GameEmbeddingPayload` (sqlite_vec.py lines 47-67); the
`__post_init__` float coercion is the identity here. -/
structure GameEmbeddingPayload where
  game_id : String
  title_embedding : List ℚ
  description_embedding : List ℚ
  metadata : Metadata
deriving DecidableEq

/-- Per-instance configuration of `SQLiteVecEmbeddingRepository`
(sqlite_vec.py lines 235-255). -/
structure StoreConfig where
  dimension : ℕ := 768
  distance_metric : DistanceMetric := .cosine
deriving DecidableEq

/-- Mutable state of one store instance: the relational table, the rowid
counter, the one-way `_vec_index_ready` flag and the contents of the vec0
virtual table. -/
structure StoreState where
  rows : List GameEmbeddingRow
  nextId : ℕ
  vecIndexReady : Bool
  vecEntries : List (ℕ × List ℚ)
deriving DecidableEq

/-- Store-level decode of a blob column, the word-granularity counterpart
of `_blob_to_embedding` (sqlite_vec.py lines 461-466): the decoded word
count must equal the requested dimension, else the read raises
`SQLiteVecError("Stored embedding dimension mismatch")`. -/
def blobToVector (blob : List ℚ) (dimension : ℕ) :
    Except StoreErr (List ℚ) :=
  if blob.length ≠ dimension then .error .storedDimensionMismatch
  else .ok blob

/-- Model of `_model_to_record` (sqlite_vec.py lines 411-421): decode both
blobs against the row's `dimension` (failures propagate), defaulting null
metadata to the empty mapping. -/
def _model_to_record (model : GameEmbeddingRow) :
    Except StoreErr GameEmbeddingRecord :=
  match blobToVector model.title_embedding model.dimension with
  | .error e => .error e
  | .ok title =>
    match blobToVector model.description_embedding model.dimension with
    | .error e => .error e
    | .ok desc =>
      .ok { game_id := model.game_id
            dimension := model.dimension
            title_embedding := title
            description_embedding := desc
            metadata := model.embedding_metadata.getD {}
            created_at := model.created_at
            updated_at := model.updated_at }

/-- Model of `_row_to_search_result` (sqlite_vec.py lines 423-437): like
`_model_to_record` but from a joined accelerated-search row that also
carries a distance. -/
def _row_to_search_result (model : GameEmbeddingRow) (distance : PyDist) :
    Except StoreErr GameEmbeddingSearchResult :=
  match blobToVector model.title_embedding model.dimension with
  | .error e => .error e
  | .ok title =>
    match blobToVector model.description_embedding model.dimension with
    | .error e => .error e
    | .ok desc =>
      .ok { game_id := model.game_id
            dimension := model.dimension
            title_embedding := title
            description_embedding := desc
            metadata := model.embedding_metadata.getD {}
            created_at := model.created_at
            updated_at := model.updated_at
            distance := distance }

open Classical in
/-- Model of `_search_with_vec_index` (sqlite_vec.py lines 331-358): join
the vec0 entries with the primary table on rowid, order by the index's
distance (vec0's default L2 metric over the indexed vector), truncate to
`limit`, and convert each row (conversion failures propagate). -/
noncomputable def _search_with_vec_index (st : StoreState)
    (embedding : List ℚ) (limit : ℕ) :
    Except StoreErr (List GameEmbeddingSearchResult) :=
  let joined := st.vecEntries.filterMap (fun e =>
    match st.rows.find? (fun r => decide (r.id = e.1)) with
    | some r => some (r, _calculate_distance .l2 e.2 embedding)
    | none => none)
  let ordered := (joined.insertionSort (fun a b => a.2.le b.2)).take limit
  ordered.mapM (fun p => _row_to_search_result p.1 p.2)

open Classical in
/-- Model of `_search_fallback` (sqlite_vec.py lines 360-385): load every
row whose dimension matches the configured one, decode each (failures
propagate), compute the configured distance against the query vector,
sort ascending by distance and truncate to `limit`. -/
noncomputable def _search_fallback (cfg : StoreConfig) (st : StoreState)
    (embedding : List ℚ) (limit : ℕ) :
    Except StoreErr (List GameEmbeddingSearchResult) := do
  let models := st.rows.filter (fun r => decide (r.dimension = cfg.dimension))
  let records ← models.mapM _model_to_record
  let results := records.map (fun record =>
    { toGameEmbeddingRecord := record
      distance := _calculate_distance cfg.distance_metric
        record.description_embedding embedding })
  .ok ((results.insertionSort (fun a b => a.distance.le b.distance)).take limit)

/-- Model of `_sync_vec_index` (sqlite_vec.py lines 387-409):
delete-then-insert the vec0 entry keyed by the rowid; `opFails` is the
oracle for an `OperationalError` raised by the SQL statements (placed at
the insert, after the delete), in which case the method returns `False`. -/
def _sync_vec_index (st : StoreState) (row_id : ℕ) (embedding : List ℚ)
    (opFails : Bool) : StoreState × Bool :=
  let afterDelete := st.vecEntries.filter (fun e => decide (e.1 ≠ row_id))
  if opFails then ({ st with vecEntries := afterDelete }, false)
  else ({ st with vecEntries := afterDelete ++ [(row_id, embedding)] }, true)

/-- Tail of `upsert_embedding` (sqlite_vec.py lines 294-299): sync the vec
index when the flag is up (storing the returned flag), then convert the
written row back to a record. -/
def finishUpsert (syncFails : Bool) (model : GameEmbeddingRow)
    (st : StoreState) : Except StoreErr GameEmbeddingRecord × StoreState :=
  let st2 :=
    if st.vecIndexReady then
      let res := _sync_vec_index st model.id model.description_embedding syncFails
      { res.1 with vecIndexReady := res.2 }
    else st
  (_model_to_record model, st2)

/-- Insert branch of `upsert_embedding` (sqlite_vec.py lines 273-284): a
new row at a fresh rowid, both timestamps stamped to now. -/
def upsertInsert (cfg : StoreConfig) (now : ℕ) (syncFails : Bool)
    (p : GameEmbeddingPayload) (st : StoreState) :
    Except StoreErr GameEmbeddingRecord × StoreState :=
  finishUpsert syncFails
    { id := st.nextId
      game_id := p.game_id
      dimension := cfg.dimension
      title_embedding := _normalize_embedding p.title_embedding
      description_embedding := _normalize_embedding p.description_embedding
      embedding_metadata := some p.metadata
      created_at := now
      updated_at := now }
    { st with
        rows := st.rows ++
          [{ id := st.nextId
             game_id := p.game_id
             dimension := cfg.dimension
             title_embedding := _normalize_embedding p.title_embedding
             description_embedding := _normalize_embedding p.description_embedding
             embedding_metadata := some p.metadata
             created_at := now
             updated_at := now }]
        nextId := st.nextId + 1 }

/-- Replace branch of `upsert_embedding` (sqlite_vec.py lines 285-292):
every field of the existing row is replaced in place at the same rowid;
`created_at` is kept, `updated_at` advances. -/
def upsertReplace (cfg : StoreConfig) (now : ℕ) (syncFails : Bool)
    (p : GameEmbeddingPayload) (st : StoreState)
    (existing : GameEmbeddingRow) :
    Except StoreErr GameEmbeddingRecord × StoreState :=
  finishUpsert syncFails
    { existing with
        dimension := cfg.dimension
        title_embedding := _normalize_embedding p.title_embedding
        description_embedding := _normalize_embedding p.description_embedding
        embedding_metadata := some p.metadata
        updated_at := now }
    { st with
        rows := st.rows.map (fun r =>
          if r.id = existing.id then
            { existing with
                dimension := cfg.dimension
                title_embedding := _normalize_embedding p.title_embedding
                description_embedding := _normalize_embedding p.description_embedding
                embedding_metadata := some p.metadata
                updated_at := now }
          else r) }

/-- Model of `upsert_embedding` (sqlite_vec.py lines 257-299): reject a
dimension mismatch before touching the state, else insert a new row at a
fresh rowid or replace every field of the existing row in place, stamp
timestamps (`created_at` only on insert), sync the vec index, and return
the stored record. -/
def upsert_embedding (cfg : StoreConfig) (now : ℕ) (syncFails : Bool)
    (p : GameEmbeddingPayload) (st : StoreState) :
    Except StoreErr GameEmbeddingRecord × StoreState :=
  if (_normalize_embedding p.title_embedding).length ≠ cfg.dimension ∨
      (_normalize_embedding p.description_embedding).length ≠ cfg.dimension then
    (.error .dimensionMismatch, st)
  else
    match st.rows.find? (fun r => decide (r.game_id = p.game_id)) with
    | none =>
      upsertInsert cfg now syncFails p st
    | some existing =>
      upsertReplace cfg now syncFails p st existing

/-- Model of `get_embedding` (sqlite_vec.py lines 301-309). -/
def get_embedding (gid : String) (st : StoreState) :
    Except StoreErr (Option GameEmbeddingRecord) :=
  match st.rows.find? (fun r => decide (r.game_id = gid)) with
  | none => .ok none
  | some model => (_model_to_record model).map some

/-- Model of `search_similar` (sqlite_vec.py lines 311-329): reject a
query-dimension mismatch, then use the accelerated path when the flag is
up; an `OperationalError` there (oracle `accFails`) permanently lowers the
flag and the same call answers from the fallback scan.  The third
component records whether the accelerated index path produced the
answer. -/
noncomputable def search_similar (cfg : StoreConfig)
    (query_embedding : List ℚ) (limit : ℕ) (accFails : Bool)
    (st : StoreState) :
    Except StoreErr (List GameEmbeddingSearchResult) × StoreState × Bool :=
  if (_normalize_embedding query_embedding).length ≠ cfg.dimension then
    (.error .queryDimensionMismatch, st, false)
  else if st.vecIndexReady then
    if accFails then
      (_search_fallback cfg st (_normalize_embedding query_embedding) limit,
       { st with vecIndexReady := false }, false)
    else
      (_search_with_vec_index st (_normalize_embedding query_embedding) limit,
       st, true)
  else
    (_search_fallback cfg st (_normalize_embedding query_embedding) limit,
     st, false)

/-- One public operation on a store instance, with the oracles for the
runtime failures of the accelerated SQL statements. -/
inductive StoreOp where
  | upsertOp (now : ℕ) (syncFails : Bool) (p : GameEmbeddingPayload)
  | searchOp (q : List ℚ) (limit : ℕ) (accFails : Bool)

/-- State reached after one operation. -/
noncomputable def applyOp (cfg : StoreConfig) (st : StoreState) :
    StoreOp → StoreState
  | .upsertOp now sf p => (upsert_embedding cfg now sf p st).2
  | .searchOp q lim af => (search_similar cfg q lim af st).2.1

/-- State reached after a sequence of operations. -/
noncomputable def runOps (cfg : StoreConfig) :
    StoreState → List StoreOp → StoreState
  | st, [] => st
  | st, op :: rest => runOps cfg (applyOp cfg st op) rest

theorem bytesToWords_wordBytes (w : ℕ) (hw : w < 2 ^ 32) (bs : List ℕ) :
    bytesToWords (wordBytes w ++ bs) = w :: bytesToWords bs := by
  simp only [wordBytes, List.cons_append, List.nil_append, bytesToWords,
    List.cons.injEq]
  refine ⟨?_, rfl⟩
  norm_num
  omega

theorem embedding_to_blob_length (v : List ℕ) :
    (_embedding_to_blob v).length = 4 * v.length := by
  induction v with
  | nil => rfl
  | cons w rest ih =>
    simp only [_embedding_to_blob, List.map_cons, List.flatten_cons,
      List.length_append, List.length_cons] at ih ⊢
    simp [wordBytes] at ih ⊢
    omega

theorem bytesToWords_blob (v : List ℕ) (hw : ∀ w ∈ v, w < 2 ^ 32) :
    bytesToWords (_embedding_to_blob v) = v := by
  induction v with
  | nil => rfl
  | cons w rest ih =>
    have h1 : _embedding_to_blob (w :: rest) =
        wordBytes w ++ _embedding_to_blob rest := by
      simp [_embedding_to_blob]
    rw [h1, bytesToWords_wordBytes w (hw w (by simp))]
    rw [ih (fun x hx => hw x (by simp [hx]))]

/-- C8: for every dimension `d > 0` and every float32 sequence of length
`d` (elements given by their 32-bit IEEE-754 patterns, i.e. already
rounded to float32), decoding the encoded blob at the same dimension gives
the sequence back exactly. -/
theorem vector_codec_roundtrip (d : ℕ) (v : List ℕ) (_hpos : 0 < d)
    (hd : v.length = d) (hw : ∀ w ∈ v, w < 2 ^ 32) :
    _blob_to_embedding (_embedding_to_blob v) d = .ok v := by
  unfold _blob_to_embedding
  rw [embedding_to_blob_length, bytesToWords_blob v hw]
  simp [hd, Nat.mul_mod_right]

theorem vector_codec_roundtrip_witness :
    _blob_to_embedding (_embedding_to_blob [0, 1, 4294967295]) 3 =
      .ok [0, 1, 4294967295] :=
  vector_codec_roundtrip 3 [0, 1, 4294967295] (by norm_num) rfl (by decide)

/-- C10: rebuilding a candidate context from absent metadata, or from a
mapping missing every well-known key, succeeds and yields the given game
id with no title, no summary and empty tag, genre and keyword collections;
such a row is still scored, its candidate context being exactly that
default view. -/
theorem from_metadata_total_on_absent (gid : String) (md : Metadata)
    (cfg : ServiceConfig) (q : SimilarityQuery) (r : GameEmbeddingSearchRow)
    (ht : md.title = none) (hs : md.summary = none) (htg : md.tags = none)
    (hg : md.genres = none) (hk : md.keywords = none)
    (hr : r.metadata = none) :
    EmbeddedGameContext.from_metadata gid none =
      { game_id := gid, title := none, summary := none, tags := [],
        genres := [], keywords := [], extra := {} } ∧
    EmbeddedGameContext.from_metadata gid (some md) =
      { game_id := gid, title := none, summary := none, tags := [],
        genres := [], keywords := [], extra := md } ∧
    (scoreRow cfg q r).candidate =
      { game_id := r.game_id, title := none, summary := none, tags := [],
        genres := [], keywords := [], extra := {} } := by
  refine ⟨rfl, ?_, ?_⟩
  · cases md
    simp_all [EmbeddedGameContext.from_metadata, mkEmbeddedGameContext,
      _normalize_sequence, normalizeSeqLoop]
  · simp [scoreRow, _score_candidate, hr]
    rfl

theorem from_metadata_total_witness :
    EmbeddedGameContext.from_metadata "g1" (some {}) =
      { game_id := "g1", title := none, summary := none, tags := [],
        genres := [], keywords := [], extra := {} } :=
  (from_metadata_total_on_absent "g1" {} {} { title := "t" }
    { game_id := "g1", distance := .val 0 } rfl rfl rfl rfl rfl rfl).2.1

/-- C3 counterexample: at `distance = +inf` the code computes
`1.0 / (1.0 + inf) = 0.0`, not the configured threshold (`0.05` by
default), because `_base_similarity` special-cases only NaN and negative
distances. -/
theorem base_similarity_posInf_counterexample :
    _base_similarity 0.05 PyFloat.posInf = 0 ∧ (0 : ℚ) ≠ 0.05 := by
  exact ⟨rfl, by norm_num⟩

/-- C3 amended: the base score is `1 / (1 + d)` for finite non-negative
`d`, the configured threshold for NaN and for negative distances
(including `-inf`), and `0` (the IEEE value of `1 / (1 + inf)`) for
`+inf`. -/
theorem base_similarity_amended (thr : ℚ) (q : ℚ) (hq : 0 ≤ q) :
    _base_similarity thr (.val q) = 1 / (1 + q) ∧
    _base_similarity thr .nan = thr ∧
    _base_similarity thr .negInf = thr ∧
    _base_similarity thr .posInf = 0 ∧
    ∀ q2 : ℚ, q2 < 0 → _base_similarity thr (.val q2) = thr := by
  refine ⟨?_, rfl, rfl, rfl, ?_⟩
  · have h : ¬ q < 0 := not_lt.mpr hq
    simp [_base_similarity, PyFloat.isnan, PyFloat.ltZero, h]
  · intro q2 h
    simp [_base_similarity, PyFloat.isnan, PyFloat.ltZero, h]

theorem base_similarity_amended_witness :
    _base_similarity 0.05 (PyFloat.val 1) = 1 / 2 := by
  have h := (base_similarity_amended 0.05 1 (by norm_num)).1
  rw [h]
  norm_num

/-- C4: for every configuration, every distance (NaN, infinities and all
finite values included) and every combination of query and candidate
attributes, the final score lies in `[0, 1]`. -/
theorem score_candidate_bounds (cfg : ServiceConfig) (q : SimilarityQuery)
    (record : GameEmbeddingSearchRow) (profile : EmbeddedGameContext) :
    0 ≤ (_score_candidate cfg q record profile).score ∧
    (_score_candidate cfg q record profile).score ≤ 1 := by
  have h : (_score_candidate cfg q record profile).score = _clamp
      (_base_similarity cfg.min_score_threshold record.distance
        + (if (_tag_bonus q profile).1 ≠ 0 then (_tag_bonus q profile).1 else 0)
        + (if (_genre_bonus q profile).1 ≠ 0 then (_genre_bonus q profile).1 else 0)
        + (if (_keyword_bonus q profile).1 ≠ 0 then (_keyword_bonus q profile).1 else 0)
        + (if (_summary_bonus q.summary profile.summary).1 ≠ 0 then
            (_summary_bonus q.summary profile.summary).1 else 0)
        - (if (_coverage_penalty q profile).1 ≠ 0 then
            (_coverage_penalty q profile).1 else 0)) := rfl
  rw [h]
  unfold _clamp
  exact ⟨le_max_left 0 _, max_le (by norm_num) (min_le_left 1 _)⟩

/-- C5: an upsert whose title or description vector length differs from
the configured dimension, and a similarity search whose query vector
length differs from it, fail with the corresponding dimension-mismatch
validation error and leave the store state untouched. -/
theorem dimension_guard (cfg : StoreConfig) (p : GameEmbeddingPayload)
    (st : StoreState) (now : ℕ) (syncFails : Bool) (qv : List ℚ)
    (limit : ℕ) (accFails : Bool)
    (hp : p.title_embedding.length ≠ cfg.dimension ∨
          p.description_embedding.length ≠ cfg.dimension)
    (hq : qv.length ≠ cfg.dimension) :
    upsert_embedding cfg now syncFails p st = (.error .dimensionMismatch, st) ∧
    search_similar cfg qv limit accFails st =
      (.error .queryDimensionMismatch, st, false) := by
  constructor
  · unfold upsert_embedding _normalize_embedding
    rw [if_pos hp]
  · unfold search_similar _normalize_embedding
    rw [if_pos hq]

/-- Store instance state just after construction with the vec index
available and no rows. -/
def emptyStore : StoreState :=
  { rows := [], nextId := 1, vecIndexReady := true, vecEntries := [] }

theorem dimension_guard_witness :
    upsert_embedding {} 0 false
        { game_id := "g", title_embedding := [1], description_embedding := [1],
          metadata := {} } emptyStore =
      (.error .dimensionMismatch, emptyStore) ∧
    search_similar {} [1] 10 false emptyStore =
      (.error .queryDimensionMismatch, emptyStore, false) :=
  dimension_guard {}
    { game_id := "g", title_embedding := [1], description_embedding := [1],
      metadata := {} }
    emptyStore 0 false [1] 10 false (Or.inl (by norm_num)) (by norm_num)

/-- C9: a record built by `_model_to_record` or `_row_to_search_result`
always carries title and description vectors of length exactly its
`dimension` field, and a row whose stored title blob decodes to a length
disagreeing with the row's dimension makes the conversion fail instead of
returning a malformed record. -/
theorem record_vector_lengths (m : GameEmbeddingRow)
    (r : GameEmbeddingRecord) (sr : GameEmbeddingSearchResult) (d : PyDist) :
    (_model_to_record m = .ok r →
      r.title_embedding.length = r.dimension ∧
      r.description_embedding.length = r.dimension) ∧
    (_row_to_search_result m d = .ok sr →
      sr.title_embedding.length = sr.dimension ∧
      sr.description_embedding.length = sr.dimension) ∧
    (m.title_embedding.length ≠ m.dimension ∨
        m.description_embedding.length ≠ m.dimension →
      ∃ e, _model_to_record m = .error e) := by
  refine ⟨?_, ?_, ?_⟩
  · intro hok
    by_cases h1 : m.title_embedding.length = m.dimension
    · by_cases h2 : m.description_embedding.length = m.dimension
      · simp only [_model_to_record, blobToVector, h1, h2, ne_eq,
          not_true_eq_false, if_false, Except.ok.injEq] at hok
        rw [← hok]
        exact ⟨h1, h2⟩
      · simp [_model_to_record, blobToVector, h1, h2] at hok
    · simp [_model_to_record, blobToVector, h1] at hok
  · intro hok
    by_cases h1 : m.title_embedding.length = m.dimension
    · by_cases h2 : m.description_embedding.length = m.dimension
      · simp only [_row_to_search_result, blobToVector, h1, h2, ne_eq,
          not_true_eq_false, if_false, Except.ok.injEq] at hok
        rw [← hok]
        exact ⟨h1, h2⟩
      · simp [_row_to_search_result, blobToVector, h1, h2] at hok
    · simp [_row_to_search_result, blobToVector, h1] at hok
  · intro hbad
    by_cases h1 : m.title_embedding.length = m.dimension
    · by_cases h2 : m.description_embedding.length = m.dimension
      · rcases hbad with h | h <;> exact absurd (by assumption) h
      · exact ⟨.storedDimensionMismatch,
          by simp [_model_to_record, blobToVector, h1, h2]⟩
    · exact ⟨.storedDimensionMismatch,
        by simp [_model_to_record, blobToVector, h1]⟩

/-- Concrete well-formed row used to witness C9. -/
def goodRow : GameEmbeddingRow :=
  { id := 1, game_id := "g", dimension := 2, title_embedding := [1, 2],
    description_embedding := [3, 4], embedding_metadata := none,
    created_at := 0, updated_at := 0 }

/-- Record produced from `goodRow`. -/
def goodRec : GameEmbeddingRecord :=
  { game_id := "g", dimension := 2, title_embedding := [1, 2],
    description_embedding := [3, 4], metadata := {}, created_at := 0,
    updated_at := 0 }

theorem record_vector_lengths_witness :
    goodRec.title_embedding.length = goodRec.dimension ∧
    goodRec.description_embedding.length = goodRec.dimension :=
  (record_vector_lengths goodRow goodRec
    { goodRec with distance := .posInf } PyDist.posInf).1 rfl

theorem finishUpsert_flag (sf : Bool) (model : GameEmbeddingRow)
    (st : StoreState) (h : st.vecIndexReady = false) :
    (finishUpsert sf model st).2.vecIndexReady = false := by
  unfold finishUpsert
  simp [h]

theorem applyOp_preserves_downgrade (cfg : StoreConfig) (st : StoreState)
    (op : StoreOp) (h : st.vecIndexReady = false) :
    (applyOp cfg st op).vecIndexReady = false := by
  cases op with
  | upsertOp now sf p =>
    simp only [applyOp]
    unfold upsert_embedding _normalize_embedding
    by_cases hl : p.title_embedding.length ≠ cfg.dimension ∨
        p.description_embedding.length ≠ cfg.dimension
    · rw [if_pos hl]
      exact h
    · rw [if_neg hl]
      cases st.rows.find? (fun r => decide (r.game_id = p.game_id)) with
      | none =>
        unfold upsertInsert
        exact finishUpsert_flag _ _ _ h
      | some existing =>
        unfold upsertReplace
        exact finishUpsert_flag _ _ _ h
  | searchOp q lim af =>
    simp only [applyOp]
    unfold search_similar _normalize_embedding
    by_cases hl : q.length ≠ cfg.dimension
    · rw [if_pos hl]
      exact h
    · rw [if_neg hl, h]
      exact h

theorem runOps_preserves_downgrade (cfg : StoreConfig) (ops : List StoreOp) :
    ∀ st : StoreState, st.vecIndexReady = false →
      (runOps cfg st ops).vecIndexReady = false := by
  induction ops with
  | nil => exact fun st h => h
  | cons op rest ih =>
    exact fun st h => ih _ (applyOp_preserves_downgrade cfg st op h)

/-- C7: when an accelerated query fails at runtime, that very call answers
from the fallback scan and lowers the readiness flag; afterwards no
sequence of store operations ever raises the flag again, and every
later search answers from the fallback, never the accelerated path. -/
theorem downgrade_one_way (cfg : StoreConfig) (st : StoreState)
    (q : List ℚ) (limit : ℕ) (ops : List StoreOp)
    (hready : st.vecIndexReady = true) (hq : q.length = cfg.dimension) :
    (search_similar cfg q limit true st).2.1.vecIndexReady = false ∧
    (search_similar cfg q limit true st).2.2 = false ∧
    (search_similar cfg q limit true st).1 = _search_fallback cfg st q limit ∧
    ∀ st2 : StoreState, st2.vecIndexReady = false →
      (runOps cfg st2 ops).vecIndexReady = false ∧
      ∀ (q2 : List ℚ) (lim2 : ℕ) (af2 : Bool),
        (search_similar cfg q2 lim2 af2 st2).2.2 = false ∧
        (search_similar cfg q2 lim2 af2 st2).2.1 = st2 := by
  have hcond : ¬ q.length ≠ cfg.dimension := by simp [hq]
  refine ⟨?_, ?_, ?_, ?_⟩
  · unfold search_similar _normalize_embedding
    rw [if_neg hcond, hready]
    rfl
  · unfold search_similar _normalize_embedding
    rw [if_neg hcond, hready]
    rfl
  · unfold search_similar _normalize_embedding
    rw [if_neg hcond, hready]
    rfl
  · intro st2 h2
    refine ⟨runOps_preserves_downgrade cfg ops st2 h2, ?_⟩
    intro q2 lim2 af2
    unfold search_similar _normalize_embedding
    by_cases hl : q2.length ≠ cfg.dimension
    · rw [if_pos hl]
      exact ⟨rfl, rfl⟩
    · rw [if_neg hl, h2]
      exact ⟨rfl, rfl⟩

theorem downgrade_one_way_witness :
    (search_similar {} (List.replicate 768 0) 10 true emptyStore).2.1.vecIndexReady =
      false :=
  (downgrade_one_way {} emptyStore (List.replicate 768 0) 10 [] rfl
    (List.length_replicate 768 0)).1

theorem sumSq_nonneg (x : List ℚ) : 0 ≤ sumSq x := by
  unfold sumSq
  apply List.sum_nonneg
  intro b hb
  obtain ⟨a, _, rfl⟩ := List.mem_map.mp hb
  exact mul_self_nonneg a

theorem sumSq_cast (x : List ℚ) :
    ((sumSq x : ℚ) : ℝ) = (x.map fun a : ℚ => ((a : ℝ)) ^ 2).sum := by
  induction x with
  | nil => simp [sumSq]
  | cons a rest ih =>
    unfold sumSq at ih ⊢
    simp only [List.map_cons, List.sum_cons, Rat.cast_add, Rat.cast_mul]
    rw [ih]
    ring

theorem sqrt_sumSq_eq_zero_iff (x : List ℚ) :
    Real.sqrt ((sumSq x : ℚ) : ℝ) = 0 ↔ sumSq x = 0 := by
  rw [Real.sqrt_eq_zero']
  constructor
  · intro h
    have h2 : sumSq x ≤ 0 := by exact_mod_cast h
    exact le_antisymm h2 (sumSq_nonneg x)
  · intro h
    rw [h]
    simp

/-- Euclidean norm of a rational vector, written from the spec's formula
`‖a‖ = sqrt(Σ aᵢ²)`. -/
noncomputable def specNorm (x : List ℚ) : ℝ :=
  Real.sqrt ((x.map fun a : ℚ => ((a : ℝ)) ^ 2).sum)

theorem specNorm_eq_sqrt_sumSq (x : List ℚ) :
    specNorm x = Real.sqrt ((sumSq x : ℚ) : ℝ) := by
  unfold specNorm
  rw [sumSq_cast]

/-- C2 counterexample: with a zero-norm vector the code's cosine distance
is `float('inf')`, not the sentinel `1.0` the claim states. -/
theorem cosine_zero_norm_counterexample :
    _calculate_distance .cosine [0, 0] [1, 0] = .posInf ∧
    PyDist.posInf ≠ PyDist.val 1 := by
  constructor
  · simp only [_calculate_distance]
    rw [if_pos]
    left
    rw [sqrt_sumSq_eq_zero_iff]
    norm_num [sumSq]
  · intro h
    exact PyDist.noConfusion h

/-- C2 amended: for vectors of equal length, the cosine distance equals
`1 - dot(x,y)/(‖x‖·‖y‖)` whenever both norms are non-zero, and is the
sentinel `float('inf')` — not `1.0` — whenever either norm is zero; the
computation never divides by zero and is total. -/
theorem cosine_distance_amended (x y : List ℚ)
    (_hlen : x.length = y.length) :
    (sumSq x = 0 ∨ sumSq y = 0 →
      _calculate_distance .cosine x y = .posInf) ∧
    (sumSq x ≠ 0 → sumSq y ≠ 0 →
      _calculate_distance .cosine x y =
        .val (1 - ((dotQ x y : ℚ) : ℝ) / (specNorm x * specNorm y))) := by
  constructor
  · intro h
    simp only [_calculate_distance]
    rw [if_pos]
    rcases h with h | h
    · exact Or.inl ((sqrt_sumSq_eq_zero_iff x).mpr h)
    · exact Or.inr ((sqrt_sumSq_eq_zero_iff y).mpr h)
  · intro h1 h2
    simp only [_calculate_distance]
    rw [if_neg, specNorm_eq_sqrt_sumSq, specNorm_eq_sqrt_sumSq]
    rintro (h | h)
    · exact h1 ((sqrt_sumSq_eq_zero_iff x).mp h)
    · exact h2 ((sqrt_sumSq_eq_zero_iff y).mp h)

theorem cosine_distance_amended_witness :
    _calculate_distance .cosine [1] [1] =
      .val (1 - ((dotQ [1] [1] : ℚ) : ℝ) / (specNorm [1] * specNorm [1])) :=
  (cosine_distance_amended [1] [1] rfl).2 (by norm_num [sumSq])
    (by norm_num [sumSq])

/-- Lowered identifier under which `_filter_results` compares candidate
rows. -/
def rowKey (r : GameEmbeddingSearchRow) : String :=
  pyLower r.game_id

theorem filterResultsLoop_spec (excluded : Finset String) :
    ∀ (l : List GameEmbeddingSearchRow) (seen : Finset String),
      ∀ m ∈ filterResultsLoop excluded seen l,
        rowKey m ∉ excluded ∧ rowKey m ∉ seen ∧
        l.find? (fun r => decide (rowKey r = rowKey m)) = some m := by
  intro l
  induction l with
  | nil =>
    intro seen m hm
    simp [filterResultsLoop] at hm
  | cons r rest ih =>
    intro seen m hm
    simp only [filterResultsLoop] at hm
    by_cases hc : pyLower r.game_id ∈ excluded ∨ pyLower r.game_id ∈ seen
    · rw [if_pos hc] at hm
      obtain ⟨h1, h2, h3⟩ := ih seen m hm
      refine ⟨h1, h2, ?_⟩
      have hne : rowKey r ≠ rowKey m := by
        intro he
        rcases hc with hc | hc
        · exact h1 (he ▸ hc)
        · exact h2 (he ▸ hc)
      rw [List.find?_cons_of_neg _ (by simp [hne]), h3]
    · rw [if_neg hc] at hm
      push_neg at hc
      rcases List.mem_cons.mp hm with rfl | hm2
      · exact ⟨hc.1, hc.2, List.find?_cons_of_pos _ (by simp)⟩
      · obtain ⟨h1, h2, h3⟩ := ih (insert (pyLower r.game_id) seen) m hm2
        have hne : rowKey r ≠ rowKey m := by
          intro he
          exact h2 (he ▸ Finset.mem_insert_self _ _)
        refine ⟨h1, fun hs => h2 (Finset.mem_insert_of_mem hs), ?_⟩
        rw [List.find?_cons_of_neg _ (by simp [hne]), h3]

theorem filterResultsLoop_nodup (excluded : Finset String) :
    ∀ (l : List GameEmbeddingSearchRow) (seen : Finset String),
      ((filterResultsLoop excluded seen l).map rowKey).Nodup := by
  intro l
  induction l with
  | nil =>
    intro seen
    simp [filterResultsLoop]
  | cons r rest ih =>
    intro seen
    simp only [filterResultsLoop]
    by_cases hc : pyLower r.game_id ∈ excluded ∨ pyLower r.game_id ∈ seen
    · rw [if_pos hc]
      exact ih seen
    · rw [if_neg hc]
      simp only [List.map_cons, List.nodup_cons]
      refine ⟨?_, ih _⟩
      intro hmem
      obtain ⟨m, hm, hkey⟩ := List.mem_map.mp hmem
      have h := (filterResultsLoop_spec excluded rest
        (insert (pyLower r.game_id) seen) m hm).2.1
      exact h (hkey ▸ Finset.mem_insert_self _ _)

theorem filterResultsLoop_sublist (excluded : Finset String) :
    ∀ (l : List GameEmbeddingSearchRow) (seen : Finset String),
      (filterResultsLoop excluded seen l).Sublist l := by
  intro l
  induction l with
  | nil =>
    intro seen
    simp [filterResultsLoop]
  | cons r rest ih =>
    intro seen
    simp only [filterResultsLoop]
    by_cases hc : pyLower r.game_id ∈ excluded ∨ pyLower r.game_id ∈ seen
    · rw [if_pos hc]
      exact (ih seen).cons r
    · rw [if_neg hc]
      exact (ih _).cons₂ r

theorem normalizeIdsLoop_spec :
    ∀ (l acc : List String), ∀ x ∈ normalizeIdsLoop acc l,
      x ∈ acc ∨ ∃ y ∈ l, x = pyLower (pyStrip y) := by
  intro l
  induction l with
  | nil =>
    intro acc x hx
    exact Or.inl hx
  | cons v rest ih =>
    intro acc x hx
    simp only [normalizeIdsLoop] at hx
    by_cases h1 : pyStrip v = ""
    · rw [if_pos h1] at hx
      rcases ih acc x hx with h | ⟨y, hy, hxy⟩
      · exact Or.inl h
      · exact Or.inr ⟨y, List.mem_cons_of_mem _ hy, hxy⟩
    · rw [if_neg h1] at hx
      by_cases h2 : pyLower (pyStrip v) ∈ acc
      · rw [if_pos h2] at hx
        rcases ih acc x hx with h | ⟨y, hy, hxy⟩
        · exact Or.inl h
        · exact Or.inr ⟨y, List.mem_cons_of_mem _ hy, hxy⟩
      · rw [if_neg h2] at hx
        rcases ih (acc ++ [pyLower (pyStrip v)]) x hx with h | ⟨y, hy, hxy⟩
        · rcases List.mem_append.mp h with h | h
          · exact Or.inl h
          · simp only [List.mem_singleton] at h
            exact Or.inr ⟨v, List.mem_cons_self v rest, h⟩
        · exact Or.inr ⟨y, List.mem_cons_of_mem _ hy, hxy⟩

theorem collectMatches_mem (cfg : ServiceConfig) (q : SimilarityQuery)
    (limit : ℤ) :
    ∀ (l : List GameEmbeddingSearchRow) (cnt : ℤ) (m : SimilarityMatch),
      m ∈ collectMatches cfg q limit l cnt → ∃ r ∈ l, m = scoreRow cfg q r := by
  intro l
  induction l with
  | nil =>
    intro cnt m hm
    simp [collectMatches] at hm
  | cons r rest ih =>
    intro cnt m hm
    simp only [collectMatches] at hm
    by_cases hs : (scoreRow cfg q r).score < cfg.min_score_threshold
    · rw [if_pos hs] at hm
      obtain ⟨r2, hr2, hm2⟩ := ih cnt m hm
      exact ⟨r2, List.mem_cons_of_mem r hr2, hm2⟩
    · rw [if_neg hs] at hm
      by_cases hl : limit ≤ cnt + 1
      · rw [if_pos hl] at hm
        simp only [List.mem_singleton] at hm
        exact ⟨r, List.mem_cons_self r rest, hm⟩
      · rw [if_neg hl] at hm
        rcases List.mem_cons.mp hm with rfl | hm2
        · exact ⟨r, List.mem_cons_self r rest, rfl⟩
        · obtain ⟨r2, hr2, hm3⟩ := ih (cnt + 1) m hm2
          exact ⟨r2, List.mem_cons_of_mem r hr2, hm3⟩

theorem scoreRow_candidate_id (cfg : ServiceConfig) (q : SimilarityQuery)
    (r : GameEmbeddingSearchRow) :
    (scoreRow cfg q r).candidate.game_id = r.game_id := rfl

/-- Concrete query used in the C1 and C6 witnesses: valid title, limit 1,
no attributes, no exclusions. -/
def qC1 : SimilarityQuery :=
  { title := "q", limit := 1 }

/-- Candidate row at distance 1 (scores 1/2 under `qC1`). -/
def rowA : GameEmbeddingSearchRow :=
  { game_id := "a", distance := .val 1 }

/-- Candidate row at distance 0 (scores 1 under `qC1`). -/
def rowB : GameEmbeddingSearchRow :=
  { game_id := "b", distance := .val 0 }

/-- Candidate row whose id equals `rowA`'s up to case. -/
def rowA2 : GameEmbeddingSearchRow :=
  { game_id := "A", distance := .val 2 }

/-- C6: no match returned by the service carries the query's own id or a
normalized excluded id (comparisons on lowered ids); the filtered
candidates are a sublist of the store's list with pairwise-distinct
lowered ids, each survivor being the first input row bearing its id; and
every normalized excluded id is the lowered stripped form of a raw entry,
so membership of the lowered id is exactly case-insensitive equality up to
the normalization. -/
theorem exclusion_and_dedup (cfg : ServiceConfig) (q : SimilarityQuery)
    (results : List GameEmbeddingSearchRow) (raw : List String) :
    (∀ m ∈ findSimilarMatches cfg q results,
      pyLower m.candidate.game_id ∉ q.excluded_game_ids ∧
      ∀ gid, q.game_id = some gid → gid ≠ "" →
        pyLower m.candidate.game_id ≠ pyLower gid) ∧
    ((_filter_results q results).map rowKey).Nodup ∧
    (_filter_results q results).Sublist results ∧
    (∀ m ∈ _filter_results q results,
      results.find? (fun r => decide (rowKey r = rowKey m)) = some m) ∧
    (∀ x ∈ _normalize_ids raw, ∃ y ∈ raw, x = pyLower (pyStrip y)) := by
  refine ⟨?_, filterResultsLoop_nodup _ results ∅,
    filterResultsLoop_sublist _ results ∅,
    fun m hm => (filterResultsLoop_spec _ results ∅ m hm).2.2, ?_⟩
  · intro m hm
    have hm2 : m ∈ collectMatches cfg q (min q.limit cfg.max_limit)
        (_filter_results q results) 0 := by
      have hperm := List.perm_insertionSort scoreGE
        (collectMatches cfg q (min q.limit cfg.max_limit)
          (_filter_results q results) 0)
      exact hperm.mem_iff.mp hm
    obtain ⟨r, hr, rfl⟩ := collectMatches_mem cfg q _ _ 0 m hm2
    have hexc := (filterResultsLoop_spec (excludedIdSet q) results ∅ r hr).1
    rw [scoreRow_candidate_id]
    constructor
    · intro hmem
      exact hexc (Finset.mem_union_left _ (List.mem_toFinset.mpr hmem))
    · intro gid hgid hne he
      apply hexc
      apply Finset.mem_union_right
      rw [hgid]
      show rowKey r ∈ if gid ≠ "" then ({pyLower gid} : Finset String) else ∅
      rw [if_pos hne]
      exact Finset.mem_singleton.mpr he
  · intro x hx
    rcases normalizeIdsLoop_spec raw [] x hx with h | h
    · simp at h
    · exact h

theorem exclusion_and_dedup_witness :
    ((_filter_results qC1 [rowA, rowA2]).map rowKey).Nodup :=
  (exclusion_and_dedup {} qC1 [rowA, rowA2] []).2.1

/-- Candidates that survive scoring: the filtered rows scored in store
order, keeping those at or above the threshold. -/
def survivingMatches (cfg : ServiceConfig) (q : SimilarityQuery)
    (rows : List GameEmbeddingSearchRow) : List SimilarityMatch :=
  (rows.map (scoreRow cfg q)).filter
    (fun m => decide (cfg.min_score_threshold ≤ m.score))

theorem collectMatches_eq_take (cfg : ServiceConfig) (q : SimilarityQuery)
    (limit : ℤ) :
    ∀ (l : List GameEmbeddingSearchRow) (cnt : ℤ),
      collectMatches cfg q limit l cnt =
        (survivingMatches cfg q l).take (max (limit - cnt) 1).toNat := by
  intro l
  induction l with
  | nil =>
    intro cnt
    simp [collectMatches, survivingMatches]
  | cons r rest ih =>
    intro cnt
    simp only [collectMatches, survivingMatches, List.map_cons]
    by_cases hs : (scoreRow cfg q r).score < cfg.min_score_threshold
    · rw [if_pos hs]
      rw [List.filter_cons_of_neg (by simp [not_le.mpr hs])]
      simpa [survivingMatches] using ih cnt
    · rw [if_neg hs]
      rw [List.filter_cons_of_pos (by simp [not_lt.mp hs])]
      by_cases hl : limit ≤ cnt + 1
      · rw [if_pos hl]
        have h1 : (max (limit - cnt) 1).toNat = 1 := by omega
        rw [h1]
        simp
      · rw [if_neg hl]
        have h1 : (max (limit - cnt) 1).toNat =
            (max (limit - (cnt + 1)) 1).toNat + 1 := by omega
        rw [h1, List.take_succ_cons]
        rw [show collectMatches cfg q limit rest (cnt + 1) =
          (survivingMatches cfg q rest).take
            (max (limit - (cnt + 1)) 1).toNat from ih (cnt + 1)]
        rfl

instance : IsTotal SimilarityMatch scoreGE :=
  ⟨fun a b => le_total b.score a.score⟩

instance : IsTrans SimilarityMatch scoreGE :=
  ⟨fun _ _ _ h1 h2 => le_trans h2 h1⟩

/-- C1 amended: the returned matches are exactly the first `limit`
surviving candidates in store-returned order (survivors past the first
`limit` are never scored into the result, whatever their score), sorted by
final score descending with the stable tie-break; so the result is sorted
and is a permutation of that prefix of the survivors, but need not contain
the `limit` highest-scoring survivors. -/
theorem find_similar_sorts_first_surviving (cfg : ServiceConfig)
    (q : SimilarityQuery) (candidates : List GameEmbeddingSearchRow)
    (hlim : 1 ≤ min q.limit cfg.max_limit) :
    findSimilarMatches cfg q candidates =
      ((survivingMatches cfg q (_filter_results q candidates)).take
        (min q.limit cfg.max_limit).toNat).insertionSort scoreGE ∧
    (findSimilarMatches cfg q candidates).Sorted scoreGE ∧
    (findSimilarMatches cfg q candidates).Perm
      ((survivingMatches cfg q (_filter_results q candidates)).take
        (min q.limit cfg.max_limit).toNat) := by
  have hmain : findSimilarMatches cfg q candidates =
      ((survivingMatches cfg q (_filter_results q candidates)).take
        (min q.limit cfg.max_limit).toNat).insertionSort scoreGE := by
    unfold findSimilarMatches
    show List.insertionSort scoreGE
        (collectMatches cfg q (min q.limit cfg.max_limit)
          (_filter_results q candidates) 0) = _
    rw [collectMatches_eq_take]
    have h1 : (max (min q.limit cfg.max_limit - 0) 1).toNat =
        (min q.limit cfg.max_limit).toNat := by omega
    rw [h1]
  refine ⟨hmain, ?_, ?_⟩
  · rw [hmain]
    exact List.sorted_insertionSort scoreGE _
  · rw [hmain]
    exact List.perm_insertionSort scoreGE _

theorem find_similar_sorts_first_surviving_witness :
    (findSimilarMatches {} qC1 [rowA, rowB]).Sorted scoreGE :=
  (find_similar_sorts_first_surviving {} qC1 [rowA, rowB]
    (by norm_num [qC1])).2.1

theorem scoreRow_rowA_score : (scoreRow {} qC1 rowA).score = 1 / 2 := by
  norm_num [scoreRow, _score_candidate, _base_similarity, _tag_bonus,
    _genre_bonus, _keyword_bonus, _summary_bonus, _coverage_penalty, _clamp,
    qC1, rowA, PyFloat.isnan, PyFloat.ltZero, SimilarityQuery.normalized_tags,
    SimilarityQuery.normalized_genres, SimilarityQuery.normalized_keywords,
    EmbeddedGameContext.from_metadata, mkEmbeddedGameContext,
    _normalize_sequence, normalizeSeqLoop]

theorem scoreRow_rowB_score : (scoreRow {} qC1 rowB).score = 1 := by
  norm_num [scoreRow, _score_candidate, _base_similarity, _tag_bonus,
    _genre_bonus, _keyword_bonus, _summary_bonus, _coverage_penalty, _clamp,
    qC1, rowB, PyFloat.isnan, PyFloat.ltZero, SimilarityQuery.normalized_tags,
    SimilarityQuery.normalized_genres, SimilarityQuery.normalized_keywords,
    EmbeddedGameContext.from_metadata, mkEmbeddedGameContext,
    _normalize_sequence, normalizeSeqLoop]

theorem filter_qC1_rows : _filter_results qC1 [rowA, rowB] = [rowA, rowB] := by
  simp [_filter_results, filterResultsLoop, excludedIdSet, qC1, rowA, rowB,
    pyLower]

/-- C1 counterexample: with `limit = 1` and two surviving candidates, the
loop in `find_similar` stops after the first store-ordered survivor
(score `1/2`) and never scores the second (score `1`), so a surviving
candidate outside the result outscores the one inside it. -/
theorem truncation_before_sort_counterexample :
    (findSimilarMatches {} qC1 [rowA, rowB]).map SimilarityMatch.score =
      [1 / 2] ∧
    (survivingMatches {} qC1 (_filter_results qC1 [rowA, rowB])).map
      SimilarityMatch.score = [1 / 2, 1] ∧
    ((1 : ℚ) / 2 < 1) := by
  have hlim : min qC1.limit ({} : ServiceConfig).max_limit = 1 := by
    norm_num [qC1]
  refine ⟨?_, ?_, by norm_num⟩
  · unfold findSimilarMatches
    show (List.insertionSort scoreGE
      (collectMatches {} qC1 (min qC1.limit ({} : ServiceConfig).max_limit)
        (_filter_results qC1 [rowA, rowB]) 0)).map SimilarityMatch.score =
      [1 / 2]
    rw [filter_qC1_rows, hlim]
    simp only [collectMatches]
    rw [if_neg (by rw [scoreRow_rowA_score]; norm_num),
      if_pos (by norm_num)]
    simp [List.insertionSort, scoreRow_rowA_score]
  · rw [filter_qC1_rows]
    simp only [survivingMatches, List.map_cons, List.map_nil]
    rw [List.filter_cons_of_pos (by rw [decide_eq_true_eq, scoreRow_rowA_score]; norm_num),
      List.filter_cons_of_pos (by rw [decide_eq_true_eq, scoreRow_rowB_score]; norm_num)]
    simp [scoreRow_rowA_score, scoreRow_rowB_score]
